import Mathlib

/-!
# Verification of the p2pchat peer-discovery-and-transport subsystem

Shallow embedding of the repository's core modules:

* the canonicalizer / signer / verifier (`src/unnamed/part_002`,
  `cryptoService`): `getCanonicalMessagePayload`,
  `getCanonicalGroupMessagePayload`, `hexToBuffer`, `verify`,
  `verifyGroupMessage`;
* the signaling client (`src/unnamed/part_003`, `SignalingService`):
  `connect`, `sendSignal`, `flushQueue`, `disconnect`, `setRelayUrl`,
  the `onopen`/`onmessage`/`onclose` socket handlers and the
  reconnection timer;
* the peer connection manager (`src/unnamed/part_003`, `WebRTCService`):
  `connectToPeer`, `createPeerConnection`, `setupDataChannel`,
  `handleSignal`, `sendMessage`, `cleanup`.

JavaScript `Map`s are embedded as association lists whose `set` replaces
in place, strings as `String`, numbers that the code only ever treats as
integers as `Nat`, optional (`?`) fields as `Option`, and the WebCrypto
primitives as an abstract oracle (`CryptoModel`).  Fallible code is
embedded in `Except`/`Option`; event-driven state is embedded as explicit
state-passing step functions that also return the list of observable
effects (socket transmissions, emitted signaling envelopes).
-/

namespace P2PChat

/-! ## JSON serialization fragment

`JSON.stringify` applied to the object literals built by
`getCanonicalMessagePayload` / `getCanonicalGroupMessagePayload`:
keys appear in literal insertion order, keys whose value is `undefined`
are omitted entirely, strings are escaped, integers print in decimal. -/

/-- One character of `JSON.stringify` string escaping: `"` and `\` get a
backslash, the common control characters get their two-character escapes,
other control characters below U+0020 get a `\u00XX` escape, everything
else is passed through. -/
def jsonEscapeChar (c : Char) : String :=
  if c = '"' then "\\\""
  else if c = '\\' then "\\\\"
  else if c = '\n' then "\\n"
  else if c = '\r' then "\\r"
  else if c = '\t' then "\\t"
  else if c = Char.ofNat 8 then "\\b"
  else if c = Char.ofNat 12 then "\\f"
  else if c.toNat < 32 then
    "\\u00" ++ String.mk [Nat.digitChar (c.toNat / 16), Nat.digitChar (c.toNat % 16)]
  else String.singleton c

/-- `JSON.stringify` of a string value. -/
def jsonStr (s : String) : String :=
  "\"" ++ String.join (s.data.map jsonEscapeChar) ++ "\""

/-- `JSON.stringify` of an array of strings. -/
def jsonStrList (l : List String) : String :=
  "[" ++ String.intercalate "," (l.map jsonStr) ++ "]"

/-! ## Data model (`src/frontend/types.ts`) -/

/-- `MessageFile` from `types.ts`. -/
structure MessageFile where
  name : String
  type : String
  size : Nat
  data : String
  deriving Repr, DecidableEq

/-- The `sender` field of `Message`: the literal union `'you' | 'them'`. -/
inductive Sender where
  | you | them
  deriving Repr, DecidableEq

/-- Wire text of a `Sender` value. -/
def Sender.toWire : Sender → String
  | .you => "you"
  | .them => "them"

/-- The `state` field of `Message`: `'sent' | 'sending' | 'failed' | 'received'`. -/
inductive MsgState where
  | sent | sending | failed | received
  deriving Repr, DecidableEq

/-- `Message` from `types.ts`. -/
structure Message where
  id : Nat
  contactId : Nat
  sender : Sender
  content : String
  file : Option MessageFile
  signature : String
  timestamp : Nat
  state : MsgState
  deriving Repr, DecidableEq

/-- The `Omit<Message, 'id' | 'signature' | 'state'>` argument type of
`getCanonicalMessagePayload` and `sign`. -/
structure MessagePayload where
  contactId : Nat
  sender : Sender
  content : String
  file : Option MessageFile
  timestamp : Nat
  deriving Repr, DecidableEq

/-- The implicit structural coercion TypeScript applies when a full
`Message` is passed where `Omit<Message, 'id' | 'signature' | 'state'>`
is expected (as `verify` does): the extra fields are simply not read. -/
def Message.toPayload (m : Message) : MessagePayload :=
  { contactId := m.contactId, sender := m.sender, content := m.content,
    file := m.file, timestamp := m.timestamp }

/-- `GroupPoll` from `types.ts`. -/
structure GroupPoll where
  question : String
  options : List String
  deriving Repr, DecidableEq

/-- `GroupEvent` from `types.ts` (`location` is optional). -/
structure GroupEvent where
  title : String
  description : String
  location : Option String
  eventTime : String
  deriving Repr, DecidableEq

/-- `GroupPollVote` from `types.ts`. -/
structure GroupPollVote where
  pollId : Nat
  optionIndex : Nat
  deriving Repr, DecidableEq

/-- `GroupUpdate` from `types.ts`. -/
structure GroupUpdate where
  displayPicture : String
  deriving Repr, DecidableEq

/-- The `type` field of `GroupMessage`. -/
inductive GroupMsgType where
  | text | file | event | poll | pollVote | group_update
  deriving Repr, DecidableEq

/-- Wire text of a `GroupMsgType` value. -/
def GroupMsgType.toWire : GroupMsgType → String
  | .text => "text"
  | .file => "file"
  | .event => "event"
  | .poll => "poll"
  | .pollVote => "pollVote"
  | .group_update => "group_update"

/-- `GroupMessage` from `types.ts`. -/
structure GroupMessage where
  id : Nat
  groupId : String
  senderKey : String
  timestamp : Nat
  signature : String
  type : GroupMsgType
  content : String
  file : Option MessageFile
  poll : Option GroupPoll
  event : Option GroupEvent
  pollVote : Option GroupPollVote
  groupUpdate : Option GroupUpdate
  deriving Repr, DecidableEq

/-- The `Omit<GroupMessage, 'id' | 'signature'>` argument type of
`getCanonicalGroupMessagePayload` and `signGroupMessage`. -/
structure GroupMessagePayload where
  groupId : String
  senderKey : String
  timestamp : Nat
  type : GroupMsgType
  content : String
  file : Option MessageFile
  poll : Option GroupPoll
  event : Option GroupEvent
  pollVote : Option GroupPollVote
  groupUpdate : Option GroupUpdate
  deriving Repr, DecidableEq

/-- Structural coercion of a full `GroupMessage` to the payload type
(as `verifyGroupMessage` passes its message to the canonicalizer). -/
def GroupMessage.toPayload (g : GroupMessage) : GroupMessagePayload :=
  { groupId := g.groupId, senderKey := g.senderKey, timestamp := g.timestamp,
    type := g.type, content := g.content, file := g.file, poll := g.poll,
    event := g.event, pollVote := g.pollVote, groupUpdate := g.groupUpdate }

/-! ## Canonicalizer (`cryptoService`) -/

/-- The `file` sub-object of the canonical payload:
`{ name: f.name, type: f.type, size: f.size }` serialized by
`JSON.stringify` in literal key order.  The base64 `data` field is
not part of the canonical form. -/
def fileCanonical (f : MessageFile) : String :=
  "\x7b\"name\":" ++ jsonStr f.name ++ ",\"type\":" ++ jsonStr f.type ++
    ",\"size\":" ++ toString f.size ++ "\x7d"

/-- `getCanonicalMessagePayload` from `cryptoService`: `JSON.stringify`
of the literal `{contactId, sender, content, timestamp, file: (f ↦
{name,type,size}) | undefined}`; an `undefined` value makes
`JSON.stringify` drop the `file` key entirely. -/
def getCanonicalMessagePayload (m : MessagePayload) : String :=
  "\x7b\"contactId\":" ++ toString m.contactId ++
    ",\"sender\":" ++ jsonStr m.sender.toWire ++
    ",\"content\":" ++ jsonStr m.content ++
    ",\"timestamp\":" ++ toString m.timestamp ++
    (match m.file with
      | some f => ",\"file\":" ++ fileCanonical f
      | none => "") ++ "\x7d"

/-- The `event` sub-object of the canonical group payload; its optional
`location` key is itself dropped by `JSON.stringify` when absent. -/
def eventCanonical (e : GroupEvent) : String :=
  "\x7b\"title\":" ++ jsonStr e.title ++
    ",\"description\":" ++ jsonStr e.description ++
    (match e.location with
      | some l => ",\"location\":" ++ jsonStr l
      | none => "") ++
    ",\"eventTime\":" ++ jsonStr e.eventTime ++ "\x7d"

/-- The `poll` sub-object of the canonical group payload. -/
def pollCanonical (p : GroupPoll) : String :=
  "\x7b\"question\":" ++ jsonStr p.question ++
    ",\"options\":" ++ jsonStrList p.options ++ "\x7d"

/-- The `pollVote` sub-object of the canonical group payload. -/
def pollVoteCanonical (v : GroupPollVote) : String :=
  "\x7b\"pollId\":" ++ toString v.pollId ++
    ",\"optionIndex\":" ++ toString v.optionIndex ++ "\x7d"

/-- The `groupUpdate` sub-object of the canonical group payload. -/
def groupUpdateCanonical (u : GroupUpdate) : String :=
  "\x7b\"displayPicture\":" ++ jsonStr u.displayPicture ++ "\x7d"

/-- `getCanonicalGroupMessagePayload` from `cryptoService`:
`JSON.stringify` of the literal with keys `groupId, senderKey, timestamp,
type, content, file, event, poll, pollVote, groupUpdate`, each optional
sub-object re-serialized with its own fixed key order and dropped
entirely when the source field is absent. -/
def getCanonicalGroupMessagePayload (g : GroupMessagePayload) : String :=
  "\x7b\"groupId\":" ++ jsonStr g.groupId ++
    ",\"senderKey\":" ++ jsonStr g.senderKey ++
    ",\"timestamp\":" ++ toString g.timestamp ++
    ",\"type\":" ++ jsonStr g.type.toWire ++
    ",\"content\":" ++ jsonStr g.content ++
    (match g.file with
      | some f => ",\"file\":" ++ fileCanonical f
      | none => "") ++
    (match g.event with
      | some e => ",\"event\":" ++ eventCanonical e
      | none => "") ++
    (match g.poll with
      | some p => ",\"poll\":" ++ pollCanonical p
      | none => "") ++
    (match g.pollVote with
      | some v => ",\"pollVote\":" ++ pollVoteCanonical v
      | none => "") ++
    (match g.groupUpdate with
      | some u => ",\"groupUpdate\":" ++ groupUpdateCanonical u
      | none => "") ++ "\x7d"

/-! ## Hex codecs (`cryptoService`) -/

/-- Whitespace characters `parseInt` skips before reading digits. -/
def jsWhitespace (c : Char) : Bool :=
  c = ' ' ∨ c = '\t' ∨ c = '\n' ∨ c = '\r' ∨ c = Char.ofNat 11 ∨ c = Char.ofNat 12

/-- Value of a base-16 digit character, if it is one. -/
def hexDigitVal (c : Char) : Option Nat :=
  if '0' ≤ c ∧ c ≤ '9' then some (c.toNat - '0'.toNat)
  else if 'a' ≤ c ∧ c ≤ 'f' then some (c.toNat - 'a'.toNat + 10)
  else if 'A' ≤ c ∧ c ≤ 'F' then some (c.toNat - 'A'.toNat + 10)
  else none

/-- Value of the longest hex-digit prefix of a character list. -/
def hexPrefixVal : List Char → Nat → Nat
  | [], acc => acc
  | c :: rest, acc =>
    match hexDigitVal c with
    | some d => hexPrefixVal rest (acc * 16 + d)
    | none => acc

/-- `parseInt(s, 16)`: skip JS whitespace, read an optional sign, strip a
`0x`/`0X` prefix, then read the longest hex-digit prefix; `none` is NaN. -/
def parseIntHex (s : List Char) : Option Int :=
  let s1 := s.dropWhile jsWhitespace
  let (sign, s2) : Int × List Char :=
    match s1 with
    | '-' :: rest => (-1, rest)
    | '+' :: rest => (1, rest)
    | _ => (1, s1)
  let s3 := match s2 with
    | '0' :: 'x' :: rest => rest
    | '0' :: 'X' :: rest => rest
    | _ => s2
  match s3 with
  | [] => none
  | c :: _ =>
    match hexDigitVal c with
    | none => none
    | some _ => some (sign * (hexPrefixVal s3 0 : Int))

/-- The store `bytes[i/2] = parseInt(hex.substring(i, i+2), 16)`: a NaN
becomes 0, and the value is reduced mod 256 by the `Uint8Array`. -/
def hexPairByte (c1 c2 : Char) : Nat :=
  match parseIntHex [c1, c2] with
  | none => 0
  | some v => (v % 256).toNat

/-- Successive non-overlapping character pairs; a trailing odd character
is dropped (its store lands past the end of the `Uint8Array`, where
out-of-range indexed stores are ignored). -/
def hexPairs : List Char → List Nat
  | c1 :: c2 :: rest => hexPairByte c1 c2 :: hexPairs rest
  | _ => []

/-- `hexToBuffer` from `cryptoService`: `new Uint8Array(hex.length / 2)`
(the fractional length of an odd-length string is floored by `ToIndex`),
filled two characters at a time.  Total: malformed hex yields garbage
bytes, never an exception. -/
def hexToBuffer (hex : String) : List Nat :=
  hexPairs hex.data

/-- One byte of `bufferToHex`: `b.toString(16).padStart(2, '0')`. -/
def byteToHex (b : Nat) : String :=
  let s := Nat.toDigits 16 b
  if s.length < 2 then "0" ++ String.mk s else String.mk s

/-- `bufferToHex` from `cryptoService`. -/
def bufferToHex (bytes : List Nat) : String :=
  String.join (bytes.map byteToHex)

/-! ## Signer / verifier (`cryptoService`)

The WebCrypto primitives are abstracted as an oracle.  `none` models a
rejected promise (a thrown error): `importKey` rejects on unparsable key
material, and `subtle.sign`/`subtle.verify` may reject on bad inputs.
`TextEncoder.encode` never throws, so the UTF-8 encoding step is folded
into the oracle, which receives the canonical payload text directly. -/

/-- Abstract model of the WebCrypto operations `cryptoService` uses.
Keys are abstract handles (`Nat`). -/
structure CryptoModel where
  importPub : String → Option Nat
  importPriv : String → Option Nat
  ecdsaSign : Nat → String → Option (List Nat)
  ecdsaVerify : Nat → List Nat → String → Option Bool

/-- `sign` from `cryptoService`: import the private key, canonicalize,
sign.  Any failure is re-thrown (`Except.error`), never swallowed. -/
def sign (C : CryptoModel) (messagePayload : MessagePayload)
    (privateKeyHex : String) : Except Unit String :=
  match C.importPriv privateKeyHex with
  | none => .error ()
  | some k =>
    let canonicalPayload := getCanonicalMessagePayload messagePayload
    match C.ecdsaSign k canonicalPayload with
    | none => .error ()
    | some sigBytes => .ok (bufferToHex sigBytes)

/-- The body of `verify`'s `try` block: import the public key, decode the
hex signature, re-canonicalize the received message, check. -/
def verifyE (C : CryptoModel) (message : Message) (publicKeyHex : String) :
    Except Unit Bool :=
  match C.importPub publicKeyHex with
  | none => .error ()
  | some k =>
    let signature := hexToBuffer message.signature
    let canonicalPayload := getCanonicalMessagePayload message.toPayload
    match C.ecdsaVerify k signature canonicalPayload with
    | none => .error ()
    | some isValid => .ok isValid

/-- `verify` from `cryptoService`: the `try`/`catch` maps every thrown
error to `false`, so the result is always a plain boolean. -/
def verify (C : CryptoModel) (message : Message) (publicKeyHex : String) :
    Bool :=
  match verifyE C message publicKeyHex with
  | .ok isValid => isValid
  | .error _ => false

/-- `signGroupMessage` from `cryptoService` (no `try`/`catch`: failures
propagate). -/
def signGroupMessage (C : CryptoModel) (messagePayload : GroupMessagePayload)
    (privateKeyHex : String) : Except Unit String :=
  match C.importPriv privateKeyHex with
  | none => .error ()
  | some k =>
    let canonicalPayload := getCanonicalGroupMessagePayload messagePayload
    match C.ecdsaSign k canonicalPayload with
    | none => .error ()
    | some sigBytes => .ok (bufferToHex sigBytes)

/-- The body of `verifyGroupMessage`'s `try` block; the key is the
message's own `senderKey`. -/
def verifyGroupMessageE (C : CryptoModel) (message : GroupMessage) :
    Except Unit Bool :=
  match C.importPub message.senderKey with
  | none => .error ()
  | some k =>
    let signature := hexToBuffer message.signature
    let canonicalPayload := getCanonicalGroupMessagePayload message.toPayload
    match C.ecdsaVerify k signature canonicalPayload with
    | none => .error ()
    | some isValid => .ok isValid

/-- `verifyGroupMessage` from `cryptoService`: `try`/`catch` maps every
thrown error to `false`. -/
def verifyGroupMessage (C : CryptoModel) (message : GroupMessage) : Bool :=
  match verifyGroupMessageE C message with
  | .ok isValid => isValid
  | .error _ => false

/-! ## Signaling client (`SignalingService`)

Event-driven state embedded as explicit state passing.  The current
socket is `Option ReadyState` (old sockets have their handlers nulled
before being dropped, so only the current one can fire events); the
pending reconnection timer is `Option Nat` holding its delay; `sent` is
the ghost transcript of `socket.send` calls; `connectCount` is the ghost
count of `connect` invocations. -/

/-- WebSocket `readyState`. -/
inductive ReadyState where
  | connecting | open | closing | closed
  deriving Repr, DecidableEq

/-- The `type` field of a `SignalMessage`. -/
inductive SigType where
  | offer | answer | candidate
  deriving Repr, DecidableEq

/-- `SignalMessage` from `signalingService` (as built by `sendSignal`,
where `room` is always the current room). -/
structure SignalMessage where
  type : SigType
  «from» : String
  «to» : String
  data : String
  room : String
  deriving Repr, DecidableEq

/-- State of the `SignalingService` singleton. -/
structure SigState where
  socket : Option ReadyState
  myPublicKey : Option String
  hasCallback : Bool
  reconnectPending : Option Nat
  isExplicitDisconnect : Bool
  signalQueue : List SignalMessage
  relayUrl : String
  currentRoom : String
  sent : List SignalMessage
  connectCount : Nat
  deriving Repr, DecidableEq

/-- Initial field values of the `SignalingService` class (the stored
relay URL defaulting is collapsed to the default). -/
def sigInit : SigState :=
  { socket := none, myPublicKey := none, hasCallback := false,
    reconnectPending := none, isExplicitDisconnect := false,
    signalQueue := [], relayUrl := "ws://localhost:8080",
    currentRoom := "main", sent := [], connectCount := 0 }

/-- JS truthiness of the `myPublicKey : string | null` field: `null` and
`""` are falsy. -/
def keyTruthy : Option String → Bool
  | none => false
  | some s => s ≠ ""

/-- `connect(publicKey, onSignal)`: records identity and handler, resets
the explicit-disconnect flag, nulls the old socket's handlers and closes
it, and opens a fresh socket in `CONNECTING` state.  It does **not**
clear a pending reconnection timer. -/
def connectFn (publicKey : String) (s : SigState) : SigState :=
  { s with
    myPublicKey := some publicKey
    hasCallback := true
    isExplicitDisconnect := false
    socket := some .connecting
    connectCount := s.connectCount + 1 }

/-- `sendSignal(to, type, data)`: drop when no identity is set; queue
when the socket is absent or `CONNECTING` (triggering `connect` when the
socket is absent); queue and reconnect when `CLOSING`/`CLOSED`; transmit
when `OPEN`. -/
def sendSignal («to» : String) (ty : SigType) (data : String) (s : SigState) :
    SigState :=
  match s.myPublicKey with
  | none => s
  | some pk =>
    if pk = "" then s
    else
      let msg : SignalMessage :=
        { type := ty, «from» := pk, «to» := «to», data := data,
          room := s.currentRoom }
      match s.socket with
      | none =>
        let s1 := { s with signalQueue := s.signalQueue ++ [msg] }
        if s1.hasCallback then connectFn pk s1 else s1
      | some .connecting => { s with signalQueue := s.signalQueue ++ [msg] }
      | some .open => { s with sent := s.sent ++ [msg] }
      | some .closing =>
        let s1 := { s with signalQueue := s.signalQueue ++ [msg] }
        if s1.hasCallback then connectFn pk s1 else s1
      | some .closed =>
        let s1 := { s with signalQueue := s.signalQueue ++ [msg] }
        if s1.hasCallback then connectFn pk s1 else s1

/-- `flushQueue()`: snapshot the queue, clear it, and re-submit every
snapshotted envelope through `sendSignal` in order. -/
def flushQueue (s : SigState) : SigState :=
  if s.signalQueue.length > 0 then
    let messages := s.signalQueue
    let s1 := { s with signalQueue := [] }
    messages.foldl (fun st msg => sendSignal msg.«to» msg.type msg.data st) s1
  else s

/-- The `socket.onopen` handler: the socket has just reached `OPEN`;
broadcast connectivity and flush the queue. -/
def onOpen (s : SigState) : SigState :=
  match s.socket with
  | some .connecting => flushQueue { s with socket := some .open }
  | _ => s

/-- The `socket.onclose` handler: the socket has just reached `CLOSED`;
unless the close came from an explicit `disconnect()`, clear any pending
reconnection timer and schedule exactly one new attempt 3 time units
out. -/
def onClose (s : SigState) : SigState :=
  match s.socket with
  | none => s
  | some _ =>
    let s1 := { s with socket := some .closed }
    if s1.isExplicitDisconnect then s1
    else { s1 with reconnectPending := some 3 }

/-- The reconnection timer callback: consume the pending timer and, when
an identity and handler are on file, invoke `connect`. -/
def timerFire (s : SigState) : SigState :=
  match s.reconnectPending with
  | none => s
  | some _ =>
    let s1 := { s with reconnectPending := none }
    match s1.myPublicKey with
    | some pk => if pk ≠ "" ∧ s1.hasCallback then connectFn pk s1 else s1
    | none => s1

/-- `disconnect()`: set the explicit flag, cancel any pending
reconnection timer, null the socket handlers and close it, drop the
socket reference, and clear the signal queue. -/
def disconnectFn (s : SigState) : SigState :=
  { s with
    isExplicitDisconnect := true
    reconnectPending := none
    socket := none
    signalQueue := [] }

/-- `setRelayUrl(url)`: store the address, recompute the room from the
URL's `room` query parameter (`roomParse` is the parse outcome, `none`
covering both an unparsable URL and an absent parameter), and when a
socket exists, disconnect and — when identity and handler are on file —
reconnect. -/
def setRelayUrlFn (url : String) (roomParse : Option String) (s : SigState) :
    SigState :=
  let s1 := { s with relayUrl := url, currentRoom := roomParse.getD "main" }
  match s1.socket with
  | none => s1
  | some _ =>
    let s2 := disconnectFn s1
    match s2.myPublicKey with
    | some pk => if pk ≠ "" ∧ s2.hasCallback then connectFn pk s2 else s2
    | none => s2

/-- A JavaScript value a field of a parsed JSON frame may hold. -/
inductive JsVal where
  | undef | null | str (s : String) | other
  deriving Repr, DecidableEq

/-- An incoming frame after `JSON.parse` and the unchecked
`as SignalMessage` cast: each accessed field is whatever JS value the
JSON held (`undef` when the frame was not an object or lacked the key). -/
structure ParsedFrame where
  type : JsVal
  «from» : JsVal
  «to» : JsVal
  data : JsVal
  room : JsVal
  deriving Repr, DecidableEq

/-- Strict equality `v === k` between a parsed field and the
`myPublicKey : string | null` field. -/
def jsValEqKey : JsVal → Option String → Bool
  | .str s, some t => s = t
  | .null, none => true
  | _, _ => false

/-- The `socket.onmessage` handler body: `parse` is the `JSON.parse`
outcome (`none` models a throw, which the handler catches).  The result
is the envelope passed to the signal callback, or `none` when the frame
is dropped.  The service state is not modified either way. -/
def onMessageDelivery (parse : Option ParsedFrame) (s : SigState) :
    Option ParsedFrame :=
  match parse with
  | none => none
  | some msg =>
    if jsValEqKey msg.«to» s.myPublicKey ∧ ¬ jsValEqKey msg.«from» s.myPublicKey
    then some msg else none

/-- Events the signaling client reacts to. -/
inductive SigEvent where
  | connectE (pk : String)
  | disconnectE
  | onOpenE
  | onCloseE
  | timerFireE
  | sendSignalE («to» : String) (ty : SigType) (data : String)
  | setRelayUrlE (url : String) (roomParse : Option String)
  deriving Repr, DecidableEq

/-- One step of the signaling client. -/
def sigStep (e : SigEvent) (s : SigState) : SigState :=
  match e with
  | .connectE pk => connectFn pk s
  | .disconnectE => disconnectFn s
  | .onOpenE => onOpen s
  | .onCloseE => onClose s
  | .timerFireE => timerFire s
  | .sendSignalE dst ty data => sendSignal dst ty data s
  | .setRelayUrlE url roomParse => setRelayUrlFn url roomParse s

/-- Run a sequence of events. -/
def sigRun (es : List SigEvent) (s : SigState) : SigState :=
  es.foldl (fun st e => sigStep e st) s

/-- Events that cannot invoke `connect`: everything except `connect`
itself, `sendSignal` (which reconnects when the socket is missing or
dead) and `setRelayUrl` (which reconnects after its teardown). -/
def passiveEvent : SigEvent → Bool
  | .disconnectE => true
  | .onOpenE => true
  | .onCloseE => true
  | .timerFireE => true
  | _ => false

/-! ## Peer connection manager (`WebRTCService`)

`connections` and `dataChannels` are JS `Map`s, embedded as association
lists whose `set` replaces the value at an existing key in place.
`RTCPeerConnection` objects and `RTCDataChannel` objects are identified
by the ghost handle `id`, drawn from the `nextId` counter, so that
replacement of a negotiation object is observable.  The awaited WebRTC
negotiation calls (`setRemoteDescription`, `createAnswer`, …) either
succeed, producing the listed signaling effects, or throw — and every
`handleSignal` failure is caught and dropped without touching the maps,
which is exactly what the embedding's state component records. -/

/-- `RTCDataChannel.readyState`. -/
inductive ChannelState where
  | connecting | open | closing | closed
  deriving Repr, DecidableEq

/-- A data channel: ghost identity plus `readyState`. -/
structure Channel where
  id : Nat
  readyState : ChannelState
  deriving Repr, DecidableEq

/-- Observable outputs of the manager. -/
inductive RTCEffect where
  | signalOut («to» : String) (ty : SigType)
  | dataOut («to» : String) (payload : String)
  deriving Repr, DecidableEq

/-- `Map.prototype.get`. -/
def getAssoc {α : Type} (k : String) : List (String × α) → Option α
  | [] => none
  | (k', v) :: t => if k' = k then some v else getAssoc k t

/-- `Map.prototype.set`: replace in place at an existing key, append
otherwise. -/
def setAssoc {α : Type} (k : String) (v : α) :
    List (String × α) → List (String × α)
  | [] => [(k, v)]
  | (k', v') :: t => if k' = k then (k, v) :: t else (k', v') :: setAssoc k v t

/-- `Map.prototype.delete`. -/
def delAssoc {α : Type} (k : String) :
    List (String × α) → List (String × α)
  | [] => []
  | (k', v) :: t => if k' = k then t else (k', v) :: delAssoc k t

/-- State of the `WebRTCService` singleton.  `statusCallbacks` keeps only
the registered keys (callbacks are opaque). -/
structure RTCState where
  connections : List (String × Nat)
  dataChannels : List (String × Channel)
  statusCallbacks : List (String × Unit)
  nextId : Nat
  deriving Repr, DecidableEq

/-- Initial (and post-`init`) map state of the `WebRTCService` class. -/
def rtcInit : RTCState :=
  { connections := [], dataChannels := [], statusCallbacks := [], nextId := 0 }

/-- `createPeerConnection(peerKey)`: construct a fresh
`RTCPeerConnection`, store it under `peerKey` (replacing any previous
one), install its handlers, and return it. -/
def createPeerConnection (peerKey : String) (s : RTCState) : Nat × RTCState :=
  (s.nextId,
    { s with
      connections := setAssoc peerKey s.nextId s.connections
      nextId := s.nextId + 1 })

/-- `setupDataChannel(peerKey, channel)`: store the channel under
`peerKey` (replacing any previous one) and install its handlers. -/
def setupDataChannel (peerKey : String) (ch : Channel) (s : RTCState) :
    RTCState :=
  { s with dataChannels := setAssoc peerKey ch s.dataChannels }

/-- `connectToPeer(peerKey)`: return immediately when the stored data
channel reports `open`; otherwise build a fresh peer connection and a
fresh (initially `connecting`) outbound data channel — both replacing
any stored ones — and emit an offer envelope. -/
def connectToPeer (peerKey : String) (s : RTCState) :
    RTCState × List RTCEffect :=
  let proceed : RTCState × List RTCEffect :=
    let (_, s1) := createPeerConnection peerKey s
    let ch : Channel := { id := s1.nextId, readyState := .connecting }
    let s2 := { setupDataChannel peerKey ch s1 with nextId := s1.nextId + 1 }
    (s2, [.signalOut peerKey .offer])
  match getAssoc peerKey s.dataChannels with
  | some ch => if ch.readyState = .open then (s, []) else proceed
  | none => proceed

/-- `handleSignal(signal)`: look up (or lazily create) the sender's peer
connection, then apply the offer/answer/candidate; an applied offer
produces an answer envelope, the other kinds produce nothing.  A failing
WebRTC call is caught and leaves the maps as they were. -/
def handleSignal (sender : String) (ty : SigType) (s : RTCState) :
    RTCState × List RTCEffect :=
  let s1 :=
    match getAssoc sender s.connections with
    | some _ => s
    | none => (createPeerConnection sender s).2
  match ty with
  | .offer => (s1, [.signalOut sender .answer])
  | .answer => (s1, [])
  | .candidate => (s1, [])

/-- `sendMessage(peerKey, message)`: transmit over the stored channel
and return `true` when it reports `open`; otherwise return `false`.  No
state is touched in either branch. -/
def sendMessage (peerKey message : String) (s : RTCState) :
    Bool × List RTCEffect × RTCState :=
  match getAssoc peerKey s.dataChannels with
  | some ch =>
    if ch.readyState = .open then (true, [.dataOut peerKey message], s)
    else (false, [], s)
  | none => (false, [], s)

/-- `cleanup()`: close everything and clear all three maps. -/
def cleanup (s : RTCState) : RTCState :=
  { s with connections := [], dataChannels := [], statusCallbacks := [] }

/-- Events the manager reacts to: its public operations plus the
channel/connection callbacks installed by `setupDataChannel` and
`createPeerConnection` (`onDataChannelE` is the `pc.ondatachannel`
arrival of a remote channel, `channelOpenE`/`channelCloseE` the stored
channel's `onopen`/`onclose`). -/
inductive RTCEvent where
  | connectToPeerE (k : String)
  | handleSignalE (sender : String) (ty : SigType)
  | sendMessageE (k : String) (msg : String)
  | onDataChannelE (sender : String)
  | channelOpenE (k : String)
  | channelCloseE (k : String)
  | onStatusChangeE (k : String)
  | cleanupE
  deriving Repr, DecidableEq

/-- One step of the manager (effects discarded). -/
def rtcStep (e : RTCEvent) (s : RTCState) : RTCState :=
  match e with
  | .connectToPeerE k => (connectToPeer k s).1
  | .handleSignalE sender ty => (handleSignal sender ty s).1
  | .sendMessageE k msg => (sendMessage k msg s).2.2
  | .onDataChannelE sender =>
    { setupDataChannel sender { id := s.nextId, readyState := .connecting } s
      with nextId := s.nextId + 1 }
  | .channelOpenE k =>
    match getAssoc k s.dataChannels with
    | some ch =>
      { s with dataChannels := setAssoc k { ch with readyState := .open } s.dataChannels }
    | none => s
  | .channelCloseE k => { s with dataChannels := delAssoc k s.dataChannels }
  | .onStatusChangeE k => { s with statusCallbacks := setAssoc k () s.statusCallbacks }
  | .cleanupE => cleanup s

/-- Run a sequence of manager events. -/
def rtcRun (es : List RTCEvent) (s : RTCState) : RTCState :=
  es.foldl (fun st e => rtcStep e st) s

/-- Keys of an association list. -/
def assocKeys {α : Type} (l : List (String × α)) : List String :=
  l.map Prod.fst

/-- The per-key invariant of the manager's maps: no key occurs twice. -/
def rtcInv (s : RTCState) : Prop :=
  (assocKeys s.connections).Nodup ∧ (assocKeys s.dataChannels).Nodup

/-! ## Concrete values used by witnesses and counterexamples -/

/-- A concrete message. -/
def mA : Message :=
  { id := 1, contactId := 7, sender := .you, content := "hi",
    file := none, signature := "aabb", timestamp := 5, state := .sending }

/-- The same semantic fields as `mA`, different local id, signature and
delivery state. -/
def mB : Message :=
  { id := 2, contactId := 7, sender := .you, content := "hi",
    file := none, signature := "ccdd", timestamp := 5, state := .received }

/-- A concrete group message with every optional sub-object absent. -/
def gA : GroupMessage :=
  { id := 3, groupId := "g1", senderKey := "kS", timestamp := 9,
    signature := "ee", type := .text, content := "yo", file := none,
    poll := none, event := none, pollVote := none, groupUpdate := none }

/-- A crypto oracle on which every primitive fails (rejects). -/
def cryptoAllFail : CryptoModel :=
  { importPub := fun _ => none, importPriv := fun _ => none,
    ecdsaSign := fun _ _ => none, ecdsaVerify := fun _ _ _ => none }

/-- A signaling state that queued two envelopes while its socket is
still `CONNECTING`. -/
def sigQueued : SigState :=
  { sigInit with
    socket := some .connecting
    myPublicKey := some "A"
    hasCallback := true
    signalQueue :=
      [ { type := .offer, «from» := "A", «to» := "B", data := "d1", room := "main" },
        { type := .candidate, «from» := "A", «to» := "B", data := "d2", room := "main" } ] }

/-- A signaling state with an open socket. -/
def sigOpen : SigState :=
  { sigInit with socket := some .open, myPublicKey := some "A", hasCallback := true }

/-- The manager state after a first `connectToPeer("B")` from scratch:
the negotiation with `B` is in progress (its data channel exists and is
still `connecting`, not `open`). -/
def rtcNegotiating : RTCState := (connectToPeer "B" rtcInit).1

/-- A manager state whose channel to `B` is open. -/
def rtcOpenB : RTCState :=
  { connections := [("B", 0)],
    dataChannels := [("B", { id := 1, readyState := .open })],
    statusCallbacks := [], nextId := 2 }

/-- A manager event sequence exercising session creation, replacement,
remote channels, closure, cleanup and re-creation. -/
def wEvents : List RTCEvent :=
  [.connectToPeerE "B", .handleSignalE "C" .offer, .onDataChannelE "C",
   .connectToPeerE "B", .channelCloseE "B", .connectToPeerE "B",
   .cleanupE, .handleSignalE "B" .candidate]

/-- A well-formed incoming frame addressed to `"A"` from `"B"`. -/
def wFrame : ParsedFrame :=
  { type := .str "offer", «from» := .str "B", «to» := .str "A",
    data := .other, room := .undef }

/-! ## Helper lemmas -/

theorem mem_assocKeys_setAssoc {α : Type} (k x : String) (v : α)
    (l : List (String × α)) :
    x ∈ assocKeys (setAssoc k v l) ↔ x = k ∨ x ∈ assocKeys l := by
  induction l with
  | nil => simp [setAssoc, assocKeys]
  | cons hd tl ih =>
    obtain ⟨k', v'⟩ := hd
    by_cases hk : k' = k
    · subst hk
      simp [setAssoc, assocKeys]
    · simp only [setAssoc, if_neg hk, assocKeys, List.map_cons, List.mem_cons]
      rw [show (assocKeys (setAssoc k v tl) = List.map Prod.fst (setAssoc k v tl)) from rfl] at ih
      rw [ih]
      tauto

theorem nodup_assocKeys_setAssoc {α : Type} (k : String) (v : α)
    (l : List (String × α)) (h : (assocKeys l).Nodup) :
    (assocKeys (setAssoc k v l)).Nodup := by
  induction l with
  | nil => simp [setAssoc, assocKeys]
  | cons hd tl ih =>
    obtain ⟨k', v'⟩ := hd
    simp only [assocKeys, List.map_cons, List.nodup_cons] at h
    by_cases hk : k' = k
    · subst hk
      simpa [setAssoc, assocKeys] using h
    · have h1 := ih h.2
      simp only [setAssoc, if_neg hk, assocKeys, List.map_cons, List.nodup_cons]
      refine ⟨?_, h1⟩
      intro hmem
      rcases (mem_assocKeys_setAssoc k k' v tl).mp hmem with rfl | hmem'
      · exact hk rfl
      · exact h.1 hmem'

theorem assocKeys_delAssoc_sublist {α : Type} (k : String)
    (l : List (String × α)) :
    List.Sublist (assocKeys (delAssoc k l)) (assocKeys l) := by
  induction l with
  | nil => simp [delAssoc, assocKeys]
  | cons hd tl ih =>
    obtain ⟨k', v'⟩ := hd
    by_cases hk : k' = k
    · subst hk
      simp only [delAssoc, if_pos rfl]
      exact List.sublist_cons_self k' (assocKeys tl)
    · simpa [delAssoc, hk, assocKeys] using ih.cons₂ k'

theorem nodup_assocKeys_delAssoc {α : Type} (k : String)
    (l : List (String × α)) (h : (assocKeys l).Nodup) :
    (assocKeys (delAssoc k l)).Nodup :=
  h.sublist (assocKeys_delAssoc_sublist k l)

theorem getAssoc_setAssoc_self {α : Type} (k : String) (v : α)
    (l : List (String × α)) : getAssoc k (setAssoc k v l) = some v := by
  induction l with
  | nil => simp [setAssoc, getAssoc]
  | cons hd tl ih =>
    obtain ⟨k', v'⟩ := hd
    by_cases hk : k' = k
    · simp [setAssoc, hk, getAssoc]
    · simp [setAssoc, hk, getAssoc, ih]

/-- `connectToPeer` either returns the state unchanged (open channel) or
replaces both map entries for `k` with fresh objects. -/
theorem connectToPeer_cases (k : String) (s : RTCState) :
    connectToPeer k s = (s, []) ∨
    connectToPeer k s =
      ({ s with
          connections := setAssoc k s.nextId s.connections
          dataChannels := setAssoc k
            { id := s.nextId + 1, readyState := .connecting } s.dataChannels
          nextId := s.nextId + 2 },
        [.signalOut k .offer]) := by
  unfold connectToPeer createPeerConnection setupDataChannel
  cases h : getAssoc k s.dataChannels with
  | none => right; rfl
  | some ch =>
    by_cases ho : ch.readyState = .open
    · left; simp [ho]
    · right; simp [ho]

/-- The state component of `handleSignal` does not depend on the signal
kind: it is the original state, or the state with a freshly created peer
connection for the sender. -/
theorem handleSignal_fst_cases (sender : String) (ty : SigType)
    (s : RTCState) :
    (handleSignal sender ty s).1 = s ∨
    (handleSignal sender ty s).1 =
      { s with
          connections := setAssoc sender s.nextId s.connections
          nextId := s.nextId + 1 } := by
  unfold handleSignal createPeerConnection
  cases h : getAssoc sender s.connections with
  | none => right; cases ty <;> rfl
  | some pc => left; cases ty <;> rfl

/-- `sendMessage` never mutates the manager state. -/
theorem sendMessage_state (k msg : String) (s : RTCState) :
    (sendMessage k msg s).2.2 = s := by
  unfold sendMessage
  cases h : getAssoc k s.dataChannels with
  | none => rfl
  | some ch =>
    by_cases ho : ch.readyState = .open <;> simp [ho]

/-- Every manager step preserves the per-key uniqueness invariant. -/
theorem rtcStep_inv (e : RTCEvent) (s : RTCState) (h : rtcInv s) :
    rtcInv (rtcStep e s) := by
  obtain ⟨h1, h2⟩ := h
  cases e with
  | connectToPeerE k =>
    rcases connectToPeer_cases k s with hc | hc
    · rw [show rtcStep (RTCEvent.connectToPeerE k) s = (connectToPeer k s).1
        from rfl, hc]
      exact ⟨h1, h2⟩
    · rw [show rtcStep (RTCEvent.connectToPeerE k) s = (connectToPeer k s).1
        from rfl, hc]
      exact ⟨nodup_assocKeys_setAssoc _ _ _ h1,
        nodup_assocKeys_setAssoc _ _ _ h2⟩
  | handleSignalE sender ty =>
    rcases handleSignal_fst_cases sender ty s with hc | hc <;>
      simp only [rtcStep, hc]
    · exact ⟨h1, h2⟩
    · exact ⟨nodup_assocKeys_setAssoc _ _ _ h1, h2⟩
  | sendMessageE k msg =>
    simpa only [rtcStep, sendMessage_state] using ⟨h1, h2⟩
  | onDataChannelE sender =>
    exact ⟨h1, nodup_assocKeys_setAssoc _ _ _ h2⟩
  | channelOpenE k =>
    simp only [rtcStep]
    cases hch : getAssoc k s.dataChannels with
    | none => exact ⟨h1, h2⟩
    | some ch => exact ⟨h1, nodup_assocKeys_setAssoc _ _ _ h2⟩
  | channelCloseE k =>
    exact ⟨h1, nodup_assocKeys_delAssoc _ _ h2⟩
  | onStatusChangeE k => exact ⟨h1, h2⟩
  | cleanupE => exact ⟨List.nodup_nil, List.nodup_nil⟩

theorem rtcRun_inv (es : List RTCEvent) :
    ∀ s : RTCState, rtcInv s → rtcInv (rtcRun es s) := by
  induction es with
  | nil => intro s h; exact h
  | cons e rest ih =>
    intro s h
    exact ih (rtcStep e s) (rtcStep_inv e s h)

/-- Folding `sendSignal` over a message list while the socket is open
and a (truthy) identity is set transmits every message in order, with
its `to`/`type`/`data` preserved and `from`/`room` rebuilt from the
current identity and room. -/
theorem foldl_sendSignal_open (msgs : List SignalMessage) :
    ∀ (st : SigState) (pk : String),
      st.myPublicKey = some pk → pk ≠ "" → st.socket = some .open →
      msgs.foldl (fun s m => sendSignal m.«to» m.type m.data s) st =
        { st with sent := (st.sent ++ msgs.map
            (fun m => { m with «from» := pk, room := st.currentRoom })) } := by
  induction msgs with
  | nil => intro st pk h1 h2 h3; simp
  | cons m rest ih =>
    intro st pk h1 h2 h3
    have hstep : sendSignal m.«to» m.type m.data st =
        { st with sent := (st.sent ++
            [{ m with «from» := pk, room := st.currentRoom }]) } := by
      unfold sendSignal
      rw [h1, h3]
      simp [h2]
    rw [List.foldl_cons, hstep,
      ih { st with sent := (st.sent ++
            [{ m with «from» := pk, room := st.currentRoom }]) } pk h1 h2 h3]
    simp

/-- Passive events (no `connect` invocation) keep a torn-down client
torn down: no socket, no pending reconnection, no `connect` call. -/
theorem passive_step (e : SigEvent) (s : SigState)
    (he : passiveEvent e = true) (h1 : s.socket = none)
    (h2 : s.reconnectPending = none) :
    (sigStep e s).socket = none ∧ (sigStep e s).reconnectPending = none ∧
      (sigStep e s).connectCount = s.connectCount := by
  cases e <;> simp_all [sigStep, passiveEvent, disconnectFn, onOpen, onClose,
    timerFire]

theorem passive_run (es : List SigEvent) :
    ∀ s : SigState, (∀ e ∈ es, passiveEvent e = true) → s.socket = none →
      s.reconnectPending = none →
      (sigRun es s).socket = none ∧ (sigRun es s).reconnectPending = none ∧
        (sigRun es s).connectCount = s.connectCount := by
  induction es with
  | nil => intro s _ h1 h2; exact ⟨h1, h2, rfl⟩
  | cons e rest ih =>
    intro s hall h1 h2
    have he := hall e (List.mem_cons_self e rest)
    have hs := passive_step e s he h1 h2
    have hr := ih (sigStep e s) (fun e' he' => hall e' (List.mem_cons_of_mem e he'))
      hs.1 hs.2.1
    exact ⟨hr.1, hr.2.1, hr.2.2.trans hs.2.2⟩

/-- `jsValEqKey` against a set identity holds exactly for the matching
JS string. -/
theorem jsValEqKey_some (v : JsVal) (k : String) :
    jsValEqKey v (some k) = true ↔ v = .str k := by
  cases v <;> simp [jsValEqKey]

/-! ## Claim theorems -/

/-- **C1.** The canonical projection used by `sign` and `verify` is a
function of the semantic fields only: two messages that agree on
`contactId`, `sender`, `content`, `file` and `timestamp` — while free to
differ in the local `id`, the `signature` field and the locally-assigned
delivery `state` flag — canonicalize to byte-identical output, and two
group messages agreeing on everything but `id` and `signature` do too;
an absent optional sub-object (`file`, and for group messages `event`,
`poll`, `pollVote`, `groupUpdate`) is omitted from the serialized form
entirely, never rendered as `null` or as an empty object. -/
theorem canonical_projection_excludes_and_omits :
    (∀ m1 m2 : Message,
      m1.contactId = m2.contactId → m1.sender = m2.sender →
      m1.content = m2.content → m1.file = m2.file →
      m1.timestamp = m2.timestamp →
      getCanonicalMessagePayload m1.toPayload =
        getCanonicalMessagePayload m2.toPayload)
  ∧ (∀ m : MessagePayload, m.file = none →
      getCanonicalMessagePayload m =
        "\x7b\"contactId\":" ++ toString m.contactId ++
          ",\"sender\":" ++ jsonStr m.sender.toWire ++
          ",\"content\":" ++ jsonStr m.content ++
          ",\"timestamp\":" ++ toString m.timestamp ++ "\x7d")
  ∧ (∀ g1 g2 : GroupMessage,
      g1.groupId = g2.groupId → g1.senderKey = g2.senderKey →
      g1.timestamp = g2.timestamp → g1.type = g2.type →
      g1.content = g2.content → g1.file = g2.file → g1.poll = g2.poll →
      g1.event = g2.event → g1.pollVote = g2.pollVote →
      g1.groupUpdate = g2.groupUpdate →
      getCanonicalGroupMessagePayload g1.toPayload =
        getCanonicalGroupMessagePayload g2.toPayload)
  ∧ (∀ g : GroupMessagePayload, g.file = none → g.event = none →
      g.poll = none → g.pollVote = none → g.groupUpdate = none →
      getCanonicalGroupMessagePayload g =
        "\x7b\"groupId\":" ++ jsonStr g.groupId ++
          ",\"senderKey\":" ++ jsonStr g.senderKey ++
          ",\"timestamp\":" ++ toString g.timestamp ++
          ",\"type\":" ++ jsonStr g.type.toWire ++
          ",\"content\":" ++ jsonStr g.content ++ "\x7d") := by
  refine ⟨?_, ?_, ?_, ?_⟩
  · intro m1 m2 h1 h2 h3 h4 h5
    simp [Message.toPayload, getCanonicalMessagePayload, h1, h2, h3, h4, h5]
  · intro m h
    simp [getCanonicalMessagePayload, h]
  · intro g1 g2 h1 h2 h3 h4 h5 h6 h7 h8 h9 h10
    simp [GroupMessage.toPayload, getCanonicalGroupMessagePayload,
      h1, h2, h3, h4, h5, h6, h7, h8, h9, h10]
  · intro g h1 h2 h3 h4 h5
    simp [getCanonicalGroupMessagePayload, h1, h2, h3, h4, h5]

/-- Witness for C1 at concrete messages: `mA` and `mB` differ only in
`id`, `signature` and `state`, and `gA` has every sub-object absent. -/
theorem canonical_projection_excludes_and_omits_witness :
    getCanonicalMessagePayload mA.toPayload =
      getCanonicalMessagePayload mB.toPayload
  ∧ getCanonicalGroupMessagePayload gA.toPayload =
      "\x7b\"groupId\":" ++ jsonStr "g1" ++ ",\"senderKey\":" ++ jsonStr "kS" ++
        ",\"timestamp\":" ++ toString 9 ++ ",\"type\":" ++ jsonStr "text" ++
        ",\"content\":" ++ jsonStr "yo" ++ "\x7d" := by
  constructor
  · exact canonical_projection_excludes_and_omits.1 mA mB rfl rfl rfl rfl rfl
  · exact canonical_projection_excludes_and_omits.2.2.2 gA.toPayload
      rfl rfl rfl rfl rfl

/-- **C2.** `verify` and `verifyGroupMessage` always return a plain
boolean — the `try`/`catch` turns every thrown parse or cryptographic
error into `false` (totality of the embedded functions is the
never-throws part): an unparsable public key yields `false`, a failing
cryptographic check yields `false`, and a `true` result can only arise
from a verification that ran to completion with a valid signature. -/
theorem verify_false_on_failure :
    ∀ (C : CryptoModel) (m : Message) (pk : String) (g : GroupMessage),
      (C.importPub pk = none → verify C m pk = false)
    ∧ (∀ k, C.importPub pk = some k →
        C.ecdsaVerify k (hexToBuffer m.signature)
          (getCanonicalMessagePayload m.toPayload) = none →
        verify C m pk = false)
    ∧ (verify C m pk = true → verifyE C m pk = .ok true)
    ∧ (C.importPub g.senderKey = none → verifyGroupMessage C g = false)
    ∧ (∀ k, C.importPub g.senderKey = some k →
        C.ecdsaVerify k (hexToBuffer g.signature)
          (getCanonicalGroupMessagePayload g.toPayload) = none →
        verifyGroupMessage C g = false)
    ∧ (verifyGroupMessage C g = true → verifyGroupMessageE C g = .ok true) := by
  intro C m pk g
  refine ⟨?_, ?_, ?_, ?_, ?_, ?_⟩
  · intro h
    simp [verify, verifyE, h]
  · intro k hk hv
    simp [verify, verifyE, hk, hv]
  · intro h
    cases hE : verifyE C m pk with
    | error e => simp [verify, hE] at h
    | ok b =>
      cases b with
      | false => simp [verify, hE] at h
      | true => rfl
  · intro h
    simp [verifyGroupMessage, verifyGroupMessageE, h]
  · intro k hk hv
    simp [verifyGroupMessage, verifyGroupMessageE, hk, hv]
  · intro h
    cases hE : verifyGroupMessageE C g with
    | error e => simp [verifyGroupMessage, hE] at h
    | ok b =>
      cases b with
      | false => simp [verifyGroupMessage, hE] at h
      | true => rfl

/-- Witness for C2 on an oracle where every primitive fails, an empty
public-key string and concrete messages. -/
theorem verify_false_on_failure_witness :
    verify cryptoAllFail mA "" = false
  ∧ verifyGroupMessage cryptoAllFail gA = false := by
  constructor
  · exact (verify_false_on_failure cryptoAllFail mA "" gA).1 rfl
  · exact (verify_false_on_failure cryptoAllFail mA "" gA).2.2.2.1 rfl

/-- **C3 counterexample.** In `rtcNegotiating` the session for `"B"` is
not offline — a negotiation is in progress, its data channel exists and
is still `connecting` — yet a second `connectToPeer("B")` is *not* a
no-op: it replaces the stored peer connection (handle 0 becomes 2) and
the stored data channel (handle 1 becomes 3) and emits a fresh offer. -/
theorem connectToPeer_counterexample :
    getAssoc "B" rtcNegotiating.connections = some 0
  ∧ getAssoc "B" rtcNegotiating.dataChannels =
      some { id := 1, readyState := .connecting }
  ∧ getAssoc "B" (connectToPeer "B" rtcNegotiating).1.connections = some 2
  ∧ getAssoc "B" (connectToPeer "B" rtcNegotiating).1.dataChannels =
      some { id := 3, readyState := .connecting }
  ∧ (connectToPeer "B" rtcNegotiating).2 = [.signalOut "B" .offer] :=
  ⟨rfl, rfl, rfl, rfl, rfl⟩

/-- **C3 (amended).** `connectToPeer(k)` is a no-op — same state, no
emitted offer — exactly when the stored data channel for `k` reports
`open`; when the channel is absent or not yet open (including a
negotiation already in progress), the call replaces the stored peer
connection and data channel with fresh ones and emits a new offer.  (It
still never creates a second simultaneous entry for `k`.) -/
theorem connectToPeer_noop_iff_open :
    ∀ (s : RTCState) (k : String),
      (∀ ch, getAssoc k s.dataChannels = some ch → ch.readyState = .open →
        connectToPeer k s = (s, []))
    ∧ ((∀ ch, getAssoc k s.dataChannels = some ch → ch.readyState ≠ .open) →
        getAssoc k (connectToPeer k s).1.connections = some s.nextId
        ∧ getAssoc k (connectToPeer k s).1.dataChannels =
            some { id := s.nextId + 1, readyState := .connecting }
        ∧ (connectToPeer k s).2 = [.signalOut k .offer]) := by
  intro s k
  constructor
  · intro ch hch ho
    unfold connectToPeer
    rw [hch]
    simp [ho]
  · intro hno
    have hrepl : connectToPeer k s =
        ({ s with
            connections := setAssoc k s.nextId s.connections
            dataChannels := setAssoc k
              { id := s.nextId + 1, readyState := .connecting } s.dataChannels
            nextId := s.nextId + 2 },
          [.signalOut k .offer]) := by
      rcases connectToPeer_cases k s with hc | hc
      · exfalso
        unfold connectToPeer at hc
        cases hch : getAssoc k s.dataChannels with
        | none => rw [hch] at hc; simp at hc
        | some ch =>
          rw [hch] at hc
          by_cases ho : ch.readyState = .open
          · exact hno ch hch ho
          · simp [ho] at hc
      · exact hc
    rw [hrepl]
    exact ⟨getAssoc_setAssoc_self _ _ _, getAssoc_setAssoc_self _ _ _, rfl⟩

/-- Witness for the amended C3: a call against an open channel is the
identity, and a call against the in-progress negotiation of
`rtcNegotiating` installs the fresh connection handle. -/
theorem connectToPeer_noop_iff_open_witness :
    connectToPeer "B" rtcOpenB = (rtcOpenB, [])
  ∧ getAssoc "B" (connectToPeer "B" rtcNegotiating).1.connections =
      some rtcNegotiating.nextId := by
  constructor
  · exact (connectToPeer_noop_iff_open rtcOpenB "B").1
      { id := 1, readyState := .open } rfl rfl
  · refine ((connectToPeer_noop_iff_open rtcNegotiating "B").2 ?_).1
    intro ch hch
    have h1 : (some { id := 1, readyState := .connecting } : Option Channel) =
        some ch := hch
    cases Option.some.inj h1
    decide

/-- **C4.** Upon the connection opening, the envelopes queued while
disconnected are all transmitted, exactly once, in FIFO enqueue order
(each with its `to`/`type`/`data` intact; `from`/`room` are rebuilt from
the current identity and room), and the queue is left empty; any
envelope submitted after the socket is open is appended to the transmit
transcript *after* them. -/
theorem queue_flush_fifo :
    ∀ (s : SigState) (pk : String),
      (s.myPublicKey = some pk → pk ≠ "" → s.socket = some .connecting →
        (onOpen s).sent = s.sent ++ s.signalQueue.map
          (fun m => { m with «from» := pk, room := s.currentRoom })
        ∧ (onOpen s).signalQueue = []
        ∧ (onOpen s).socket = some .open)
    ∧ (∀ (dst data : String) (ty : SigType),
        s.myPublicKey = some pk → pk ≠ "" → s.socket = some .open →
        sendSignal dst ty data s =
          { s with sent := (s.sent ++
              [{ type := ty, «from» := pk, «to» := dst, data := data,
                 room := s.currentRoom }]) }) := by
  intro s pk
  constructor
  · intro h1 h2 h3
    unfold onOpen
    rw [h3]
    unfold flushQueue
    by_cases hq : s.signalQueue.length > 0
    · simp only [hq, if_pos]
      rw [foldl_sendSignal_open s.signalQueue
        { s with socket := some .open, signalQueue := [] } pk h1 h2 rfl]
      exact ⟨rfl, rfl, rfl⟩
    · have hnil : s.signalQueue = [] := by
        simpa using List.eq_nil_of_length_eq_zero (by omega)
      simp [hnil]
  · intro dst data ty h1 h2 h3
    unfold sendSignal
    rw [h1, h3]
    simp [h2]

/-- Witness for C4: flushing the two envelopes queued in `sigQueued`,
then submitting one more on the now-open socket. -/
theorem queue_flush_fifo_witness :
    (onOpen sigQueued).sent = sigQueued.sent ++ sigQueued.signalQueue.map
      (fun m => { m with «from» := "A", room := sigQueued.currentRoom })
  ∧ (onOpen sigQueued).signalQueue = []
  ∧ sendSignal "B" .answer "d3" sigOpen =
      { sigOpen with sent := (sigOpen.sent ++
          [{ type := .answer, «from» := "A", «to» := "B", data := "d3",
             room := sigOpen.currentRoom }]) } := by
  have h := queue_flush_fifo sigQueued "A"
  have h1 := h.1 rfl (by decide) rfl
  have h2 := (queue_flush_fifo sigOpen "A").2 "B" "d3" .answer rfl (by decide) rfl
  exact ⟨h1.1, h1.2.1, h2⟩

/-- **C5.** All along any sequence of manager events — `connectToPeer`
calls, inbound signals, channel callbacks, cleanups — the manager holds
at most one session entry per peer key: the `connections` and
`dataChannels` maps never contain a duplicated key. -/
theorem session_singleton (es : List RTCEvent) :
    (assocKeys (rtcRun es rtcInit).connections).Nodup
  ∧ (assocKeys (rtcRun es rtcInit).dataChannels).Nodup :=
  rtcRun_inv es rtcInit ⟨List.nodup_nil, List.nodup_nil⟩

/-- Witness for C5 on the concrete event sequence `wEvents`. -/
theorem session_singleton_witness :
    (assocKeys (rtcRun wEvents rtcInit).connections).Nodup
  ∧ (assocKeys (rtcRun wEvents rtcInit).dataChannels).Nodup :=
  session_singleton wEvents

/-- **C6 counterexample.** `connect()` does not cancel a pending
reconnection timer.  After `connect`, an unexpected close, and a fresh
superseding `connect`, the timer scheduled by the close is still
pending, and letting it fire performs one more `connect` invocation — a
reconnection attempt fires after the superseding `connect()`, which the
claim rules out. -/
theorem reconnect_after_connect_counterexample :
    (sigRun [.connectE "A", .onCloseE, .connectE "A"] sigInit).reconnectPending
      = some 3
  ∧ (sigStep .timerFireE
        (sigRun [.connectE "A", .onCloseE, .connectE "A"] sigInit)).connectCount
      = (sigRun [.connectE "A", .onCloseE, .connectE "A"] sigInit).connectCount
        + 1 :=
  ⟨rfl, rfl⟩

/-- **C6 (amended).** On an unexpected close (socket present, explicit
disconnect flag unset) exactly one reconnection attempt is scheduled,
with the fixed delay 3, replacing any previously pending one; after
`disconnect()` no reconnection attempt ever fires — along any
continuation made of events that do not invoke `connect`, the timer
stays cancelled and no `connect` call happens.  (A superseding
`connect()` does *not* cancel a previously scheduled attempt; see the
counterexample.) -/
theorem reconnect_schedule_spec :
    ∀ (s : SigState) (rs : ReadyState) (es : List SigEvent),
      (s.socket = some rs → s.isExplicitDisconnect = false →
        (onClose s).reconnectPending = some 3)
    ∧ ((∀ e ∈ es, passiveEvent e = true) →
        (sigRun es (disconnectFn s)).reconnectPending = none
        ∧ (sigRun es (disconnectFn s)).connectCount = s.connectCount) := by
  intro s rs es
  constructor
  · intro h1 h2
    unfold onClose
    rw [h1]
    simp [h2]
  · intro hall
    have h := passive_run es (disconnectFn s) hall rfl rfl
    exact ⟨h.2.1, h.2.2⟩

/-- Witness for the amended C6: an unexpected close of the open socket
schedules the delay-3 attempt, and a torn-down client stays quiet under
later close/timer events. -/
theorem reconnect_schedule_spec_witness :
    (onClose sigOpen).reconnectPending = some 3
  ∧ (sigRun [.onCloseE, .timerFireE] (disconnectFn sigOpen)).connectCount
      = sigOpen.connectCount := by
  have h := reconnect_schedule_spec sigOpen .open [.onCloseE, .timerFireE]
  exact ⟨h.1 rfl rfl, (h.2 (by decide)).2⟩

/-- **C7.** `sendMessage(k, payload)` returns `true` and transmits the
payload exactly when the stored data channel for `k` exists and reports
`open`; otherwise it returns `false` and transmits nothing.  In both
cases the manager state is left untouched (in particular nothing is
queued). -/
theorem sendMessage_iff_open :
    ∀ (s : RTCState) (k msg : String),
      ((sendMessage k msg s).1 = true ↔
        ∃ ch, getAssoc k s.dataChannels = some ch ∧ ch.readyState = .open)
    ∧ (sendMessage k msg s).2.2 = s
    ∧ ((sendMessage k msg s).1 = true →
        (sendMessage k msg s).2.1 = [.dataOut k msg])
    ∧ ((sendMessage k msg s).1 = false → (sendMessage k msg s).2.1 = []) := by
  intro s k msg
  have hstate := sendMessage_state k msg s
  cases hch : getAssoc k s.dataChannels with
  | none => refine ⟨?_, hstate, ?_, ?_⟩ <;> simp [sendMessage, hch]
  | some ch =>
    by_cases ho : ch.readyState = .open <;>
      refine ⟨?_, hstate, ?_, ?_⟩ <;> simp [sendMessage, hch, ho]

/-- Witness for C7: delivery over the open channel of `rtcOpenB`, and
refusal over the still-connecting channel of `rtcNegotiating`. -/
theorem sendMessage_iff_open_witness :
    (sendMessage "B" "hi" rtcOpenB).1 = true
  ∧ (sendMessage "B" "hi" rtcOpenB).2.1 = [.dataOut "B" "hi"]
  ∧ (sendMessage "B" "hi" rtcOpenB).2.2 = rtcOpenB
  ∧ (sendMessage "B" "hi" rtcNegotiating).1 = false := by
  have h := sendMessage_iff_open rtcOpenB "B" "hi"
  have ht : (sendMessage "B" "hi" rtcOpenB).1 = true :=
    h.1.mpr ⟨{ id := 1, readyState := .open }, rfl, rfl⟩
  have h' := sendMessage_iff_open rtcNegotiating "B" "hi"
  refine ⟨ht, h.2.2.1 ht, h.2.1, ?_⟩
  cases hf : (sendMessage "B" "hi" rtcNegotiating).1
  · rfl
  · rcases h'.1.mp hf with ⟨ch, hch, ho⟩
    have : (some { id := 1, readyState := .connecting } : Option Channel) =
        some ch := hch
    cases Option.some.inj this
    cases ho

/-- **C8.** The incoming-frame handler delivers a parsed envelope to the
signal callback exactly when the frame parsed, its `to` is the local
identity's public key, and its `from` is not; frames failing any of
those are dropped without a callback and without an error (the handler
is total). -/
theorem onmessage_filter :
    ∀ (p : Option ParsedFrame) (s : SigState) (k : String),
      s.myPublicKey = some k →
      ∀ m : ParsedFrame,
        onMessageDelivery p s = some m ↔
          p = some m ∧ m.«to» = .str k ∧ m.«from» ≠ .str k := by
  intro p s k h m
  cases p with
  | none => simp [onMessageDelivery]
  | some msg =>
    unfold onMessageDelivery
    rw [h]
    dsimp only
    split_ifs with hc
    · obtain ⟨hto, hfrom⟩ := hc
      rw [jsValEqKey_some] at hto
      rw [jsValEqKey_some] at hfrom
      constructor
      · intro hm
        cases Option.some.inj hm
        exact ⟨rfl, hto, hfrom⟩
      · intro hx
        exact hx.1
    · constructor
      · intro hm
        exact absurd hm (by simp)
      · intro hx
        cases Option.some.inj hx.1
        exact absurd ⟨(jsValEqKey_some _ _).mpr hx.2.1,
          fun hf => hx.2.2 ((jsValEqKey_some _ _).mp hf)⟩ hc

/-- Witness for C8: `wFrame` (to `"A"`, from `"B"`) is delivered intact
on a client whose identity is `"A"`. -/
theorem onmessage_filter_witness :
    onMessageDelivery (some wFrame) sigOpen = some wFrame :=
  (onmessage_filter (some wFrame) sigOpen "A" rfl wFrame).mpr
    ⟨rfl, rfl, by decide⟩

/-- **C9.** `disconnect()` empties the outbound queue without
transmitting anything; after a subsequent `connect()` and socket open,
nothing previously queued is transmitted (the flush sends nothing); and
`setRelayUrl` on a client that has a socket likewise leaves the queue
empty, since it goes through `disconnect()`. -/
theorem disconnect_drops_queue :
    ∀ (s : SigState) (pk url : String) (roomParse : Option String)
      (rs : ReadyState),
      ((disconnectFn s).signalQueue = [] ∧ (disconnectFn s).sent = s.sent)
    ∧ (onOpen (connectFn pk (disconnectFn s))).sent = s.sent
    ∧ (onOpen (connectFn pk (disconnectFn s))).signalQueue = []
    ∧ (s.socket = some rs → (setRelayUrlFn url roomParse s).signalQueue = []) := by
  intro s pk url roomParse rs
  refine ⟨⟨rfl, rfl⟩, ?_, ?_, ?_⟩
  · simp [onOpen, connectFn, disconnectFn, flushQueue]
  · simp [onOpen, connectFn, disconnectFn, flushQueue]
  · intro hs
    unfold setRelayUrlFn
    dsimp only
    rw [hs]
    dsimp only
    cases hpk : s.myPublicKey with
    | none => simp [disconnectFn, hpk]
    | some pk' =>
      simp only [disconnectFn, hpk]
      split_ifs <;> rfl

/-- Witness for C9 on the client `sigQueued`, whose queue holds two
envelopes. -/
theorem disconnect_drops_queue_witness :
    (disconnectFn sigQueued).signalQueue = []
  ∧ (onOpen (connectFn "A" (disconnectFn sigQueued))).sent = sigQueued.sent
  ∧ (setRelayUrlFn "ws://other:9" none sigQueued).signalQueue = [] := by
  have h := disconnect_drops_queue sigQueued "A" "ws://other:9" none .connecting
  exact ⟨h.1.1, h.2.1, h.2.2.2 rfl⟩

/-- **C10.** An envelope submitted before any `connect()` has ever run
(no local identity on file) is silently dropped: `sendSignal` leaves the
whole client state unchanged — nothing is transmitted, nothing is
queued, and no connection attempt is triggered. -/
theorem sendSignal_without_identity_noop :
    ∀ (s : SigState) (dst : String) (ty : SigType) (data : String),
      s.myPublicKey = none → sendSignal dst ty data s = s := by
  intro s dst ty data h
  unfold sendSignal
  rw [h]

/-- Witness for C10 on the freshly constructed client. -/
theorem sendSignal_without_identity_noop_witness :
    sendSignal "B" .offer "d" sigInit = sigInit :=
  sendSignal_without_identity_noop sigInit "B" .offer "d" rfl

end P2PChat
